import Mathlib

/-!
Verification development for the cloud-build-watcher repository.

The Go sources are shallowly embedded in Lean:
* strings are Lean strings (Go builds operate on UTF-8 runes; inputs here
  are modelled rune by rune as lists of characters),
* Go maps with string keys are modelled as optional association lists so
  that nil maps and non-nil maps stay distinguishable,
* machine integers (int, int64, time.Duration in nanoseconds) are
  modelled as Int; overflow never matters for the properties below,
* fallible operations return Except, and functions whose Go versions
  return (value, error) pairs return Except values as well,
* standard-library routines used by the code are embedded directly
  (strings.TrimSpace, strconv.Atoi, strings.Split, path/filepath.Match,
  time formatting for fixed-offset zones); net/mail address parsing and
  time zone loading are kept abstract as parameters, since only their
  success or failure is ever inspected by the repository code.
-/

/-! ## Small Go string helpers -/

/-- Character class used by strings.TrimSpace (unicode.IsSpace): the
ASCII space characters plus NEL and NBSP. -/
def isGoSpace (c : Char) : Bool :=
  c = ' ' || c = '\t' || c = '\n' || c = '\x0b' || c = '\x0c' || c = '\r' ||
  c = '\x85' || c = '\xa0'

/-- Embedding of strings.TrimSpace. -/
def goTrimSpace (s : String) : String :=
  String.mk (((s.data.dropWhile isGoSpace).reverse.dropWhile isGoSpace).reverse)

/-- Split a character list at every occurrence of the separator
character; mirrors strings.Split for a one-character separator.  The
result is always non-empty. -/
def splitChar (c : Char) : List Char → List (List Char)
  | [] => [[]]
  | x :: xs =>
    if x = c then [] :: splitChar c xs
    else
      match splitChar c xs with
      | [] => [[x]]
      | h :: t => (x :: h) :: t

/-- Embedding of strconv.Atoi: an optional sign followed by at least one
decimal digit; anything else is an error. -/
def goAtoi (s : String) : Except Unit Int :=
  let core : List Char → Except Unit Int := fun ds =>
    if ds.isEmpty || !(ds.all (·.isDigit)) then .error ()
    else .ok (Int.ofNat (ds.foldl (fun n c => 10 * n + (c.toNat - 48)) 0))
  match s.data with
  | '+' :: t => core t
  | '-' :: t => (core t).map (fun v => -v)
  | t => core t

/-! ## Go maps with string keys

Go maps can be nil; the repository relies on the fact that a nil map has
length zero and contains nothing.  A set-like map (map[string]struct
value) is therefore an optional list of keys. -/

/-- A Go map[string]struct value: none is the nil map. -/
abbrev GoStrSet := Option (List String)

/-- Length of a Go string-set map (len of the map, counting distinct keys). -/
def lenS : GoStrSet → Nat
  | none => 0
  | some l => l.eraseDups.length

/-- Membership test on a Go string-set map. -/
def memS (s : GoStrSet) (x : String) : Bool :=
  match s with
  | none => false
  | some l => l.contains x

/-- Key list of a Go string-set map (the range of a Go for-range loop). -/
def listOfS : GoStrSet → List String
  | none => []
  | some l => l

/-! ## Build events

Embedding of the cloudbuild.Build protobuf fields used by the watcher,
together with the Build_Status enum and its canonical names. -/

inductive BuildStatus where
  | STATUS_UNKNOWN
  | PENDING
  | QUEUED
  | WORKING
  | SUCCESS
  | FAILURE
  | INTERNAL_ERROR
  | TIMEOUT
  | CANCELLED
  | EXPIRED
deriving DecidableEq

/-- Canonical string form of a build status (Build_Status.String). -/
def statusString : BuildStatus → String
  | .STATUS_UNKNOWN => "STATUS_UNKNOWN"
  | .PENDING => "PENDING"
  | .QUEUED => "QUEUED"
  | .WORKING => "WORKING"
  | .SUCCESS => "SUCCESS"
  | .FAILURE => "FAILURE"
  | .INTERNAL_ERROR => "INTERNAL_ERROR"
  | .TIMEOUT => "TIMEOUT"
  | .CANCELLED => "CANCELLED"
  | .EXPIRED => "EXPIRED"

/-- Key set of the cbpb.Build_Status_value map: every known status name. -/
def knownStatusNames : List String :=
  ["STATUS_UNKNOWN", "PENDING", "QUEUED", "WORKING", "SUCCESS", "FAILURE",
   "INTERNAL_ERROR", "TIMEOUT", "CANCELLED", "EXPIRED"]

/-- The fields of cbpb.Build read by the watcher.  Timestamps are epoch
nanoseconds (timestamppb converted via AsTime); Substitutions is the Go
map carried as an association list with distinct keys. -/
structure Build where
  id : String := ""
  projectId : String := ""
  buildTriggerId : String := ""
  status : BuildStatus := .STATUS_UNKNOWN
  logUrl : String := ""
  startTime : Int := 0
  finishTime : Int := 0
  substitutions : List (String × String) := []
  tags : List String := []

/-- Substitution names passed to buildSub (watch.go). -/
def branchSub : String := "BRANCH_NAME"

/-- Substitution name for the commit hash. -/
def commitSub : String := "COMMIT_SHA"

/-- Substitution name for the repository name. -/
def repoSub : String := "REPO_NAME"

/-- Substitution name for the trigger name. -/
def triggerNameSub : String := "TRIGGER_NAME"

/-- buildSub returns the named value from the Substitutions map of the
build, or the default when the name is absent (watch.go). -/
def buildSub (b : Build) (name dflt : String) : String :=
  match b.substitutions.lookup name with
  | some v => v
  | none => dflt

/-! ## path/filepath.Match

Faithful embedding of Go path/filepath.Match (non-Windows), operating
rune by rune.  Fuel arguments make every loop structurally recursive;
each loop of the Go code consumes at least one character of the value
the fuel is sized by, so the fuel never runs out when entered through
filepathMatch. -/

namespace GoPath

/-- getEsc from path/filepath: scan one (possibly escaped) character of
a character-class range. -/
def getEsc : List Char → Except Unit (Char × List Char)
  | [] => .error ()
  | c :: rest =>
    if c = '-' || c = ']' then .error ()
    else if c = '\\' then
      match rest with
      | [] => .error ()
      | r :: rest2 => if rest2.isEmpty then .error () else .ok (r, rest2)
    else if rest.isEmpty then .error () else .ok (c, rest)

/-- Range loop of the character-class branch of matchChunk: consumes
lo-hi ranges until the closing bracket, accumulating whether any range
contains the rune. -/
def matchRangesF : Nat → Char → List Char → Bool → Nat →
    Except Unit (Bool × List Char)
  | 0, _, _, _, _ => .error ()
  | fuel + 1, r, chunk, matched, nrange =>
    if chunk.head? = some ']' && nrange > 0 then .ok (matched, chunk.tail)
    else
      match getEsc chunk with
      | .error () => .error ()
      | .ok (lo, ch1) =>
        match (if ch1.head? = some '-' then getEsc ch1.tail else .ok (lo, ch1)) with
        | .error () => .error ()
        | .ok (hi, ch2) =>
          matchRangesF fuel r ch2 (matched || (decide (lo ≤ r) && decide (r ≤ hi)))
            (nrange + 1)

/-- matchChunk from path/filepath: match a chunk (no stars) against the
beginning of s, continuing to check the chunk for well-formedness after
a mismatch.  Returns the unmatched remainder of s and whether the chunk
matched. -/
def matchChunkF : Nat → List Char → List Char → Bool →
    Except Unit (List Char × Bool)
  | _, [], s, failed => if failed then .ok ([], false) else .ok (s, true)
  | 0, _, _, _ => .error ()
  | fuel + 1, c :: chunk1, s, failed0 =>
    let failed := failed0 || s.isEmpty
    let dc : Char := Char.ofNat 0
    if c = '[' then
      let r := if failed then dc else s.headD dc
      let s1 := if failed then s else s.tail
      let negated := chunk1.head? = some '^'
      let chunk2 := if chunk1.head? = some '^' then chunk1.tail else chunk1
      match matchRangesF (chunk2.length + 1) r chunk2 false 0 with
      | .error () => .error ()
      | .ok (matchedB, chunk3) =>
        matchChunkF fuel chunk3 s1 (failed || (matchedB == decide negated))
    else if c = '?' then
      if failed then matchChunkF fuel chunk1 s failed
      else matchChunkF fuel chunk1 s.tail (s.headD dc = '/')
    else if c = '\\' then
      match chunk1 with
      | [] => .error ()
      | d :: chunk2 =>
        if failed then matchChunkF fuel chunk2 s failed
        else matchChunkF fuel chunk2 s.tail (!(d == s.headD dc))
    else
      if failed then matchChunkF fuel chunk1 s failed
      else matchChunkF fuel chunk1 s.tail (!(c == s.headD dc))

/-- matchChunk with the fuel sized by the chunk. -/
def matchChunk (chunk s : List Char) : Except Unit (List Char × Bool) :=
  matchChunkF (chunk.length + 1) chunk s false

/-- Strip the leading stars of a pattern (first loop of scanChunk). -/
def dropStars : List Char → Bool × List Char
  | '*' :: rest => (true, (dropStars rest).2)
  | p => (false, p)

/-- Scan loop of scanChunk: cut the pattern at the next star that is
not inside a character class, keeping escaped characters together. -/
def scanBody : List Char → Bool → List Char × List Char
  | [], _ => ([], [])
  | c :: rest, inrange =>
    if c = '\\' then
      match rest with
      | [] => ([c], [])
      | d :: rest2 =>
        let (ch, r) := scanBody rest2 inrange
        (c :: d :: ch, r)
    else if c = '[' then
      let (ch, r) := scanBody rest true
      (c :: ch, r)
    else if c = ']' then
      let (ch, r) := scanBody rest false
      (c :: ch, r)
    else if c = '*' && !inrange then ([], c :: rest)
    else
      let (ch, r) := scanBody rest inrange
      (c :: ch, r)

/-- scanChunk from path/filepath: split the pattern into a leading-star
flag, the next star-free chunk, and the rest of the pattern. -/
def scanChunk (pattern : List Char) : Bool × List Char × List Char :=
  let (star, p) := dropStars pattern
  let (chunk, rest) := scanBody p false
  (star, chunk, rest)

/-- Final loop of Match: before returning an unmatched result, check
that the remaining pattern is syntactically valid. -/
def checkRestValidF : Nat → List Char → Except Unit Bool
  | _, [] => .ok false
  | 0, _ => .error ()
  | fuel + 1, pat =>
    let (_, chunk, rest) := scanChunk pat
    match matchChunk chunk [] with
    | .error () => .error ()
    | .ok _ => checkRestValidF fuel rest

/-- Outcome of the star loop of Match: a pattern error, a continue of
the pattern loop with a new remainder of the name, or scanning every
position without a match. -/
inductive StarOutcome where
  | err
  | cont (t : List Char)
  | exhausted

/-- Star loop of Match: try to match the chunk at successive positions
of the name, never skipping past a slash. -/
def starScan (chunk rest : List Char) : List Char → StarOutcome
  | [] => .exhausted
  | c :: name1 =>
    if c = '/' then .exhausted
    else
      match matchChunk chunk name1 with
      | .error () => .err
      | .ok (t, ok) =>
        if ok && !(rest.isEmpty && !t.isEmpty) then .cont t
        else starScan chunk rest name1

/-- Pattern loop of Match. -/
def matchF : Nat → List Char → List Char → Except Unit Bool
  | _, [], name => .ok name.isEmpty
  | 0, _, _ => .error ()
  | fuel + 1, pattern, name =>
    let (star, chunk, rest) := scanChunk pattern
    if star && chunk.isEmpty then .ok (!(name.contains '/'))
    else
      match matchChunk chunk name with
      | .error () => .error ()
      | .ok (t, ok) =>
        if ok && (t.isEmpty || !rest.isEmpty) then matchF fuel rest t
        else if star then
          match starScan chunk rest name with
          | .err => .error ()
          | .cont t2 => matchF fuel rest t2
          | .exhausted => checkRestValidF (rest.length + 1) rest
        else checkRestValidF (rest.length + 1) rest

end GoPath

/-- Embedding of path/filepath.Match: ok true on a match, ok false on a
mismatch, error on a malformed pattern. -/
def filepathMatch (pattern name : String) : Except Unit Bool :=
  GoPath.matchF (pattern.data.length + 1) pattern.data name.data

deriving instance DecidableEq for Except

example : filepathMatch "*1" "trigger-1" = .ok true := by decide
example : filepathMatch "main-*" "main-deploy" = .ok true := by decide
example : filepathMatch "main-*" "release-1" = .ok false := by decide
example : filepathMatch "a[" "x" = .error () := by decide
example : filepathMatch "tr?gger-[0-9]" "trigger-1" = .ok true := by decide
example : filepathMatch "*" "a/b" = .ok false := by decide

/-! ## Configuration

Embedding of config.go.  The time.Location value is modelled as a fixed
offset in seconds east of UTC; net/mail address parsing and time zone
loading are Go standard-library services whose results the watcher only
passes along, so they enter as abstract parameters collected in
NetStdlib. -/

structure MailAddress where
  name : String := ""
  address : String := ""
deriving DecidableEq

/-- Abstract interface to the standard-library parsers used by
loadConfig: mail.ParseAddress, mail.ParseAddressList and
time.LoadLocation (the latter yielding a fixed offset in seconds). -/
structure NetStdlib where
  parseAddress : String → Except Unit MailAddress
  parseAddressList : String → Except Unit (List MailAddress)
  loadLocation : String → Except Unit Int

/-- Embedding of the Config struct of config.go. -/
structure Config where
  emailHostname : String := ""
  emailPort : Int := 0
  emailUsername : String := ""
  emailPassword : String := ""
  emailFrom : Option MailAddress := none
  emailRecipients : List MailAddress := []
  emailTimeZone : Int := 0
  emailBuildTriggerIDs : GoStrSet := none
  emailBuildTriggerNames : GoStrSet := none
  emailBuildStatuses : GoStrSet := none
  badgeBucket : String := ""
  badgeBuildStatuses : GoStrSet := none

/-- strVar of loadConfig: the trimmed environment value, or the default
when the trimmed value is empty. -/
def strVar (env : String → String) (n dflt : String) : String :=
  let v := goTrimSpace (env n)
  if v ≠ "" then v else dflt

/-- listVar of loadConfig: nil for an empty value, otherwise the value
split by the regular expression of commas with optional surrounding
whitespace.  Because strVar trims the whole value first, splitting on
commas and trimming each piece is the same as the regexp split. -/
def listVar (env : String → String) (n dflt : String) : GoStrSet :=
  let ev := strVar env n dflt
  if ev.length = 0 then none
  else some ((splitChar ',' ev.data).map (fun l => goTrimSpace (String.mk l)))

/-- Embedding of loadConfig.  The first phase parses the simple fields
and keeps the first error (only EMAIL_PORT can produce one); the later
phases fail fast. -/
def loadConfig (std : NetStdlib) (env : String → String) : Except String Config :=
  match goAtoi (strVar env "EMAIL_PORT" "25") with
  | .error () => .error "invalid EMAIL_PORT"
  | .ok port =>
    let base : Config := {
      emailHostname := strVar env "EMAIL_HOSTNAME" ""
      emailPort := port
      emailUsername := strVar env "EMAIL_USERNAME" ""
      emailPassword := strVar env "EMAIL_PASSWORD" ""
      emailBuildTriggerIDs := listVar env "EMAIL_BUILD_TRIGGER_IDS" ""
      emailBuildTriggerNames := listVar env "EMAIL_BUILD_TRIGGER_NAMES" ""
      emailBuildStatuses := listVar env "EMAIL_BUILD_STATUSES" "FAILURE,INTERNAL_ERROR,TIMEOUT"
      badgeBucket := strVar env "BADGE_BUCKET" "" }
    let fromRaw := strVar env "EMAIL_FROM" ""
    match (if fromRaw = "" then .ok none else (std.parseAddress fromRaw).map some :
        Except Unit (Option MailAddress)) with
    | .error () => .error "bad EMAIL_FROM"
    | .ok fromAddr =>
      let recipRaw := strVar env "EMAIL_RECIPIENTS" ""
      match (if recipRaw = "" then .ok [] else std.parseAddressList recipRaw :
          Except Unit (List MailAddress)) with
      | .error () => .error "bad EMAIL_RECIPIENTS"
      | .ok recips =>
        match std.loadLocation (strVar env "EMAIL_TIME_ZONE" "Etc/UTC") with
        | .error () => .error "bad EMAIL_TIME_ZONE"
        | .ok tz =>
          if (listOfS base.emailBuildStatuses).all
              (fun s => knownStatusNames.contains s) then
            .ok { base with
              emailFrom := fromAddr
              emailRecipients := recips
              emailTimeZone := tz }
          else .error "bad status in EMAIL_BUILD_STATUSES"

/-! ## Eligibility checks -/

/-- Embedding of Config.checkEmail: none means proceed, some reason
means the email is skipped. -/
def checkEmail (cfg : Config) (b : Build) : Option String :=
  if cfg.emailHostname = "" then some "EMAIL_HOSTNAME not set"
  else if cfg.emailPort ≤ 0 then some "EMAIL_PORT not set"
  else if cfg.emailFrom = none then some "EMAIL_FROM not set"
  else if cfg.emailRecipients.length = 0 then some "EMAIL_RECIPIENTS not set"
  else
    let statusCheck : Option String :=
      if memS cfg.emailBuildStatuses (statusString b.status) then none
      else some ("status \"" ++ statusString b.status ++
        "\" not matched by EMAIL_BUILD_STATUSES")
    if lenS cfg.emailBuildTriggerIDs > 0 || lenS cfg.emailBuildTriggerNames > 0 then
      let name := buildSub b triggerNameSub ""
      let idOk := memS cfg.emailBuildTriggerIDs b.buildTriggerId
      let nameOk := memS cfg.emailBuildTriggerNames name
      let globOk := (listOfS cfg.emailBuildTriggerNames).any
        (fun p => decide (filepathMatch p name = .ok true))
      if !idOk && !nameOk && !globOk then
        some ("trigger " ++ b.buildTriggerId ++ " (\"" ++ name ++
          "\") not matched by EMAIL_BUILD_TRIGGER_IDS or EMAIL_BUILD_TRIGGER_NAMES")
      else statusCheck
    else statusCheck

/-! ## Badges -/

/-- Embedding of the badgeInfo struct of badge.go. -/
structure BadgeInfo where
  text : String
  fg : String
  bg : String
  width : Int
deriving DecidableEq

/-- Center of a badge segment (integer division as in Go). -/
def BadgeInfo.center (b : BadgeInfo) : Int := b.width.tdiv 2

/-- The left badge segment; its width is replaced before rendering. -/
def badgeLeft : BadgeInfo := ⟨"build", "#fff", "#555", -1⟩

/-- The badgeStatuses table: right-segment style per build status. -/
def badgeStatuses : BuildStatus → Option BadgeInfo
  | .SUCCESS => some ⟨"success", "#fff", "#2da44e", 52⟩
  | .FAILURE => some ⟨"failure", "#fff", "#c62828", 52⟩
  | .INTERNAL_ERROR => some ⟨"error", "#000", "#ffeb3b", 52⟩
  | .TIMEOUT => some ⟨"timeout", "#fff", "#333", 52⟩
  | _ => none

/-- Embedding of Config.checkBadge. -/
def checkBadge (cfg : Config) (b : Build) : Option String :=
  if cfg.badgeBucket = "" then some "BADGE_BUCKET not set"
  else if b.buildTriggerId = "" then some "build not started by a trigger"
  else if (badgeStatuses b.status).isNone then
    some ("non-badge status \"" ++ statusString b.status ++ "\"")
  else none

/-! ## Time and duration formatting

Embedding of the time formatting used by the watcher for a fixed-offset
zone: epoch seconds are turned into a civil date with the standard
era-based algorithm, matching the proleptic Gregorian calendar used by
the time package. -/

/-- Civil date (year, month, day) from days since the epoch. -/
def civilFromDays (z0 : Int) : Int × Int × Int :=
  let z := z0 + 719468
  let era := Int.fdiv z 146097
  let doe := z - era * 146097
  let yoe := Int.fdiv (doe - Int.fdiv doe 1460 + Int.fdiv doe 36524 -
    Int.fdiv doe 146096) 365
  let y := yoe + era * 400
  let doy := doe - (365 * yoe + Int.fdiv yoe 4 - Int.fdiv yoe 100)
  let mp := Int.fdiv (5 * doy + 2) 153
  let d := doy - Int.fdiv (153 * mp + 2) 5 + 1
  let m := mp + (if mp < 10 then 3 else -9)
  (y + (if m ≤ 2 then 1 else 0), m, d)

/-- Three-letter month name, for 1 ≤ m ≤ 12. -/
def monthName (m : Int) : String :=
  (["Jan", "Feb", "Mar", "Apr", "May", "Jun", "Jul", "Aug", "Sep", "Oct",
    "Nov", "Dec"]).getD (m - 1).toNat "Jan"

/-- Three-letter weekday name, index 0 = Sunday. -/
def weekdayName (w : Nat) : String :=
  (["Sun", "Mon", "Tue", "Wed", "Thu", "Fri", "Sat"]).getD w "Sun"

/-- Zero-padded two-digit rendering of a small non-negative number. -/
def pad2 (n : Int) : String :=
  if n < 10 then "0" ++ toString n else toString n

/-- Numeric zone suffix of time.RFC1123Z for a fixed offset. -/
def zoneSuffix (offset : Int) : String :=
  let a : Int := Int.ofNat offset.natAbs
  (if offset < 0 then "-" else "+") ++ pad2 (a.tdiv 3600) ++
    pad2 ((a.tmod 3600).tdiv 60)

/-- Format an epoch-seconds instant with the time.RFC1123Z layout in a
fixed-offset zone. -/
def formatRFC1123Z (sec offset : Int) : String :=
  let t := sec + offset
  let days := Int.fdiv t 86400
  let sod := Int.emod t 86400
  let (y, m, d) := civilFromDays days
  let wd := (Int.emod (days + 4) 7).toNat
  weekdayName wd ++ ", " ++ pad2 d ++ " " ++ monthName m ++ " " ++
    toString y ++ " " ++ pad2 (Int.fdiv sod 3600) ++ ":" ++
    pad2 (Int.fdiv (Int.emod sod 3600) 60) ++ ":" ++ pad2 (Int.emod sod 60) ++
    " " ++ zoneSuffix offset

/-- Format an epoch-seconds instant with the badgeTimeLayout
"2 Jan 15:04" in UTC. -/
def formatBadgeTime (sec : Int) : String :=
  let days := Int.fdiv sec 86400
  let sod := Int.emod sec 86400
  let (_, m, d) := civilFromDays days
  toString d ++ " " ++ monthName m ++ " " ++ pad2 (Int.fdiv sod 3600) ++ ":" ++
    pad2 (Int.fdiv (Int.emod sod 3600) 60)

/-- Seconds of an epoch-nanoseconds instant (time.Time seconds). -/
def nsToSec (ns : Int) : Int := Int.fdiv ns 1000000000

/-- Nanoseconds per hour (time.Hour). -/
def nsPerHour : Int := 3600000000000

/-- Nanoseconds per minute (time.Minute). -/
def nsPerMinute : Int := 60000000000

/-- Nanoseconds per second (time.Second). -/
def nsPerSecond : Int := 1000000000

/-- Embedding of formatDuration of email.go; the argument is a
time.Duration in nanoseconds.  Go integer division truncates toward
zero, hence tdiv and tmod. -/
def formatDuration (d : Int) : String :=
  let s1 := if d ≥ nsPerHour then toString (d.tdiv nsPerHour) ++ "h" else ""
  let d1 := if d ≥ nsPerHour then d.tmod nsPerHour else d
  let s2 := if d1 ≥ nsPerMinute then s1 ++ toString (d1.tdiv nsPerMinute) ++ "m" else s1
  let d2 := if d1 ≥ nsPerMinute then d1.tmod nsPerMinute else d1
  let sec := d2.tdiv nsPerSecond
  if sec > 0 || s2 = "" then s2 ++ toString sec ++ "s" else s2

example : formatDuration 12190000000000 = "3h23m10s" := by decide
example : formatDuration 12180000000000 = "3h23m" := by decide
example : formatDuration 10810000000000 = "3h10s" := by decide
example : formatDuration 1390000000000 = "23m10s" := by decide
example : formatDuration 53000000000 = "53s" := by decide
example : formatDuration 0 = "0s" := by decide

/-! ## Badge rendering

Embedding of CreateBadge of badge.go.  The badge template is a fixed
text/template; rendering it over the two segments and the start date is
string concatenation.  The pieces before and after the right-segment
text are kept as named definitions so that theorems can speak about the
position of the status text. -/

/-- The rendered badge markup up to and excluding the right-segment
status text. -/
def badgeSvgPre (left right : BadgeInfo) : String :=
  "<svg xmlns=\"http://www.w3.org/2000/svg\" width=\"90\" height=\"20\">\n" ++
  "  <g font-family=\"DejaVu Sans,Verdana,Geneva,sans-serif\" text-anchor=\"middle\" font-size=\"10\">\n" ++
  "    <rect width=\"90\" height=\"20\" rx=\"3\" fill=\"" ++ left.bg ++ "\" />\n" ++
  "    <text x=\"" ++ toString left.center ++ "\" y=\"14\" fill=\"" ++
    left.fg ++ "\">" ++ left.text ++ "</text>\n" ++
  "    <g transform=\"translate(" ++ toString left.width ++ ",0)\">\n" ++
  "      <rect width=\"" ++ toString right.width ++
    "\" height=\"20\" rx=\"3\" fill=\"" ++ right.bg ++ "\" />\n" ++
  "      <path d=\"M0 0h4v20h-4z\" fill=\"" ++ right.bg ++ "\" />\n" ++
  "      <text x=\"" ++ toString right.center ++ "\" y=\"14\" fill=\"" ++
    right.fg ++ "\">"

/-- The rendered badge markup after the right-segment status text. -/
def badgeSvgPost (date : String) : String :=
  "</text>\n" ++
  "    </g>\n" ++
  "    <rect width=\"90\" height=\"20\" rx=\"3\" fill=\"#555\" opacity=\"0\">\n" ++
  "      <set attributeName=\"opacity\" to=\"1\" begin=\"over.mouseover\" end=\"over.mouseout\" />\n" ++
  "    </rect>\n" ++
  "    <text x=\"45\" y=\"14\" fill=\"#fff\" opacity=\"0\">" ++ date ++ "\n" ++
  "      <set attributeName=\"opacity\" to=\"1\" begin=\"over.mouseover\" end=\"over.mouseout\" />\n" ++
  "    </text>\n" ++
  "    <rect id=\"over\" width=\"90\" height=\"20\" opacity=\"0\" />\n" ++
  "  </g>\n" ++
  "</svg>"

/-- The badge template rendered over its two segments and the date. -/
def badgeSvg (left right : BadgeInfo) (date : String) : String :=
  badgeSvgPre left right ++ right.text ++ badgeSvgPost date

/-- Embedding of CreateBadge: error on a status outside the
badgeStatuses table (in Go, before anything is written to the output),
otherwise the rendered markup. -/
def CreateBadge (b : Build) : Except String String :=
  match badgeStatuses b.status with
  | none => .error ("no badge info defined for status \"" ++
      statusString b.status ++ "\"")
  | some right =>
    .ok (badgeSvg { badgeLeft with width := 90 - right.width } right
      (formatBadgeTime (nsToSec b.startTime)))

/-! ## Email rendering

Embedding of BuildEmail of email.go.  The message depends on two
effects of the Go code, the current time (Date header) and the random
multipart boundary; both enter as parameters.  Both body templates are
text/template values (the HTML template is imported as text/template in
email.go, so no HTML escaping happens) and their rendering over the
shared tdata record is line-by-line string concatenation. -/

/-- mail.Address.String restricted to the shapes used in the headers
(no escaping of special characters inside names). -/
def addrString (a : MailAddress) : String :=
  if a.name = "" then "<" ++ a.address ++ ">"
  else "\"" ++ a.name ++ "\" <" ++ a.address ++ ">"

/-- Embedding of Config.emailRecipientsAddrs. -/
def emailRecipientsAddrs (cfg : Config) : List String :=
  cfg.emailRecipients.map (·.address)

/-- The or action of text/template on two string arguments: the first
argument when it is non-empty, otherwise the second. -/
def goOr (a b : String) : String := if a ≠ "" then a else b

/-- strings.Split(s, "-")[0]: the part of s before the first dash. -/
def firstDashSegment (s : String) : String :=
  String.mk ((splitChar '-' s.data).headD [])

/-- The Subject header value written by BuildEmail. -/
def emailSubject (b : Build) : String :=
  "[" ++ b.projectId ++ "] " ++ buildSub b triggerNameSub "[unknown]" ++ " " ++
  statusString b.status ++ " (build " ++ firstDashSegment b.id ++ ")"

/-- The tdata record of BuildEmail shared by both body templates.  The
Go field End is called finish here (end is reserved). -/
structure TData where
  buildID : String
  logURL : String
  triggerID : String
  triggerName : String
  triggerURL : String
  status : String
  repo : String
  commit : String
  branch : String
  start : String
  finish : String
  duration : String

/-- The tdata record computed by BuildEmail from the configuration and
the build. -/
def emailTData (cfg : Config) (b : Build) : TData :=
  { buildID := b.id
    logURL := b.logUrl
    triggerID := b.buildTriggerId
    triggerName := buildSub b triggerNameSub ""
    triggerURL := "https://console.cloud.google.com/cloud-build/triggers/edit/" ++
      b.buildTriggerId
    status := statusString b.status
    repo := buildSub b repoSub ""
    commit := buildSub b commitSub ""
    branch := buildSub b branchSub ""
    start := formatRFC1123Z (nsToSec b.startTime) cfg.emailTimeZone
    finish := formatRFC1123Z (nsToSec b.finishTime) cfg.emailTimeZone
    duration := formatDuration (b.finishTime - b.startTime) }

/-- The lines produced by the plain-text template over a tdata record;
conditional lines correspond to the template if actions, whose trim
markers remove the newlines around the actions. -/
def textLines (d : TData) : List String :=
  ["Build:     " ++ d.buildID]
  ++ (if d.triggerID ≠ "" then ["Trigger:   " ++ goOr d.triggerName d.triggerID] else [])
  ++ ["Status:    " ++ d.status]
  ++ (if d.repo ≠ "" then ["Repo:      " ++ d.repo] else [])
  ++ (if d.commit ≠ "" then ["Commit:    " ++ d.commit] else [])
  ++ (if d.branch ≠ "" then ["Branch:    " ++ d.branch] else [])
  ++ ["Start:     " ++ d.start,
      "End:       " ++ (d.finish ++ (" (" ++ (d.duration ++ ")"))),
      "Log:       " ++ d.logURL]

/-- The plain-text body: the template output is its lines joined by
newlines (the template is parsed after strings.TrimSpace, so there is
no trailing newline). -/
def renderText (d : TData) : String := String.intercalate "\n" (textLines d)

/-- The HTML table row for the trigger field. -/
def htmlTriggerRow (d : TData) : String :=
  "  <tr><td class=\"left\">Trigger</td><td><a href=\"" ++
    (d.triggerURL ++ ("\">" ++ (goOr d.triggerName d.triggerID ++ "</a></td></tr>")))

/-- The lines produced by the HTML template over a tdata record. -/
def htmlLines (d : TData) : List String :=
  ["<!DOCTYPE html>", "<html>", "<head>", "<meta charset=\"utf-8\">",
   "<style>",
   "body \x7b",
   "  font-family: Arial, Helvetica, sans-serif;",
   "\x7d",
   "table \x7b",
   "  border-spacing: 0;",
   "\x7d",
   "td.left \x7b",
   "  font-weight: bold;",
   "  padding-right: 1em;",
   "\x7d",
   "</style>", "</head>", "<body>", "<table>",
   "  <tr><td class=\"left\">Build</td><td><a href=\"" ++
     (d.logURL ++ ("\">" ++ (d.buildID ++ "</a></td></tr>")))]
  ++ (if d.triggerID ≠ "" then [htmlTriggerRow d] else [])
  ++ ["  <tr><td class=\"left\">Status</td><td>" ++ (d.status ++ "</td></tr>")]
  ++ (if d.repo ≠ "" then
        ["  <tr><td class=\"left\">Repo</td><td>" ++ (d.repo ++ "</td></tr>")] else [])
  ++ (if d.commit ≠ "" then
        ["  <tr><td class=\"left\">Commit</td><td>" ++ (d.commit ++ "</td></tr>")] else [])
  ++ (if d.branch ≠ "" then
        ["  <tr><td class=\"left\">Branch</td><td>" ++ (d.branch ++ "</td></tr>")] else [])
  ++ ["  <tr><td class=\"left\">Start</td><td>" ++ (d.start ++ "</td></tr>"),
      "  <tr><td class=\"left\">End</td><td>" ++
        (d.finish ++ (" (" ++ (d.duration ++ ")</td></tr>"))),
      "</table>", "</body>", "</html>"]

/-- The HTML body: the template output is its lines joined by newlines. -/
def renderHtml (d : TData) : String := String.intercalate "\n" (htmlLines d)

/-- The message assembled by BuildEmail, as its header values and its
two body parts. -/
structure EmailMsg where
  fromHeader : String
  toHeader : String
  subject : String
  dateHeader : String
  contentType : String
  textPart : String
  htmlPart : String

/-- Embedding of BuildEmail.  The now parameter is the current time in
epoch seconds (for the Date header) and boundary is the generated
multipart boundary.  Both body parts are rendered from the single
emailTData record. -/
def BuildEmail (cfg : Config) (b : Build) (now : Int) (boundary : String) :
    EmailMsg :=
  { fromHeader := (cfg.emailFrom.map addrString).getD ""
    toHeader := String.intercalate ", " (emailRecipientsAddrs cfg)
    subject := emailSubject b
    dateHeader := formatRFC1123Z now cfg.emailTimeZone
    contentType := "multipart/alternative; boundary=" ++ boundary
    textPart := renderText (emailTData cfg b)
    htmlPart := renderHtml (emailTData cfg b) }

/-- The raw bytes written by BuildEmail: headers, then the two parts
framed by the multipart boundary. -/
def emailBytes (m : EmailMsg) (boundary : String) : String :=
  "From: " ++ m.fromHeader ++ "\r\n" ++
  "To: " ++ m.toHeader ++ "\r\n" ++
  "Subject: " ++ m.subject ++ "\r\n" ++
  "Date: " ++ m.dateHeader ++ "\r\n" ++
  "MIME-Version: 1.0\r\n" ++
  "Content-Type: " ++ m.contentType ++ "\r\n" ++
  "\r\n" ++
  "--" ++ boundary ++ "\r\nContent-Type: text/plain; charset=UTF-8\r\n\r\n" ++
  m.textPart ++
  "\r\n--" ++ boundary ++ "\r\nContent-Type: text/html; charset=UTF-8\r\n\r\n" ++
  m.htmlPart ++
  "\r\n--" ++ boundary ++ "--\r\n"

example : formatRFC1123Z 1639251751 (-18000) = "Sat, 11 Dec 2021 14:42:31 -0500" := by
  decide

example : formatRFC1123Z 1639253091 (-18000) = "Sat, 11 Dec 2021 15:04:51 -0500" := by
  decide

example : formatDuration (1639253091000000000 - 1639251751000000000) = "22m20s" := by
  decide

example :
    emailSubject
      { id := "1234-5678"
        projectId := "my-project"
        buildTriggerId := "trigger-id"
        status := .FAILURE
        substitutions := [(triggerNameSub, "my-trigger")] } =
    "[my-project] my-trigger FAILURE (build 1234)" := by decide

/-! ## Helper lemmas -/

/-- Two strings with distinct prefixes of a common length differ, no
matter what is appended after the prefixes. -/
theorem append_ne_of_take_ne (p q x y : String) (k : Nat)
    (hp : k ≤ p.data.length) (hq : k ≤ q.data.length)
    (h : p.data.take k ≠ q.data.take k) : p ++ x ≠ q ++ y := by
  intro he
  apply h
  have hd : (p ++ x).data = (q ++ y).data := congrArg String.data he
  rw [String.data_append, String.data_append] at hd
  have ht := congrArg (List.take k) hd
  rwa [List.take_append_of_le_length hp, List.take_append_of_le_length hq] at ht

/-- Variant of append_ne_of_take_ne with a bare string on the right. -/
theorem append_ne_lit (p x q : String) (k : Nat)
    (hp : k ≤ p.data.length) (hq : k ≤ q.data.length)
    (h : p.data.take k ≠ q.data.take k) : p ++ x ≠ q := by
  intro he
  exact append_ne_of_take_ne p q x "" k hp hq h (by rw [he, String.append_empty])

/-- Membership in a conditional singleton list. -/
theorem mem_if_singleton {c : Prop} [Decidable c] {x a : String} :
    (x ∈ if c then [a] else []) ↔ c ∧ x = a := by
  by_cases h : c <;> simp [h]

/-- splitChar always returns at least one piece. -/
theorem splitChar_ne_nil (c : Char) (l : List Char) : splitChar c l ≠ [] := by
  induction l with
  | nil => simp [splitChar]
  | cons x xs ih =>
    by_cases h : x = c
    · simp [splitChar, h]
    · simp only [splitChar, h, if_false]
      cases splitChar c xs <;> simp

/-- The first piece of splitChar is everything before the first
occurrence of the separator. -/
theorem splitChar_headD (c : Char) (l : List Char) :
    (splitChar c l).headD [] = l.takeWhile (· ≠ c) := by
  induction l with
  | nil => rfl
  | cons x xs ih =>
    by_cases h : x = c
    · simp [splitChar, h, List.takeWhile]
    · obtain ⟨hd, tl, hs⟩ : ∃ hd tl, splitChar c xs = hd :: tl := by
        cases hsp : splitChar c xs with
        | nil => exact absurd hsp (splitChar_ne_nil c xs)
        | cons a b => exact ⟨a, b, rfl⟩
      rw [hs] at ih
      simp only [splitChar, h, if_false, hs, List.headD_cons, List.takeWhile]
      simp only [List.headD_cons] at ih
      simp [h, ih]

/-! ## Claim theorems -/

/-- Claim C10: buildSub returns the stored value even when that value
is the empty string; the default is used only when the key is absent
from the Substitutions map. -/
theorem c10_buildSub_empty_value (b : Build) (name dflt : String) :
    (b.substitutions.lookup name = some "" → buildSub b name dflt = "") ∧
    (∀ v, b.substitutions.lookup name = some v → buildSub b name dflt = v) ∧
    (b.substitutions.lookup name = none → buildSub b name dflt = dflt) := by
  refine ⟨?_, ?_, ?_⟩
  · intro h; simp [buildSub, h]
  · intro v h; simp [buildSub, h]
  · intro h; simp [buildSub, h]

/-- Witness for C10 at a concrete build whose COMMIT_SHA substitution
is present but empty. -/
theorem c10_witness :
    ([(commitSub, "")].lookup commitSub = some "") ∧
    buildSub { substitutions := [(commitSub, "")] } commitSub "fallback" = "" :=
  ⟨by decide, (c10_buildSub_empty_value _ _ _).1 (by decide)⟩

/-- Claim C6: checkEmail reports a distinct reason for each of the four
delivery prerequisites, checked in order (hostname, port, from address,
recipients), and never proceeds while any of them fails. -/
theorem c6_checkEmail_prereqs (cfg : Config) (b : Build) :
    (cfg.emailHostname = "" → checkEmail cfg b = some "EMAIL_HOSTNAME not set") ∧
    (cfg.emailHostname ≠ "" → cfg.emailPort ≤ 0 →
      checkEmail cfg b = some "EMAIL_PORT not set") ∧
    (cfg.emailHostname ≠ "" → 0 < cfg.emailPort → cfg.emailFrom = none →
      checkEmail cfg b = some "EMAIL_FROM not set") ∧
    (cfg.emailHostname ≠ "" → 0 < cfg.emailPort → cfg.emailFrom ≠ none →
      cfg.emailRecipients = [] →
      checkEmail cfg b = some "EMAIL_RECIPIENTS not set") ∧
    ((cfg.emailHostname = "" ∨ cfg.emailPort ≤ 0 ∨ cfg.emailFrom = none ∨
      cfg.emailRecipients = []) → checkEmail cfg b ≠ none) ∧
    List.Pairwise (· ≠ ·)
      ["EMAIL_HOSTNAME not set", "EMAIL_PORT not set", "EMAIL_FROM not set",
       "EMAIL_RECIPIENTS not set"] := by
  refine ⟨?_, ?_, ?_, ?_, ?_, by decide⟩
  · intro h1; simp [checkEmail, h1]
  · intro h1 h2; simp [checkEmail, h1, h2]
  · intro h1 h2 h3; simp [checkEmail, h1, not_le.mpr h2, h3]
  · intro h1 h2 h3 h4; simp [checkEmail, h1, not_le.mpr h2, h3, h4]
  · intro h
    rcases h with h1 | h2 | h3 | h4
    · simp [checkEmail, h1]
    · by_cases h1 : cfg.emailHostname = "" <;> simp [checkEmail, h1, h2]
    · by_cases h1 : cfg.emailHostname = "" <;>
        by_cases h2 : cfg.emailPort ≤ 0 <;>
        simp [checkEmail, h1, h2, h3]
    · by_cases h1 : cfg.emailHostname = "" <;>
        by_cases h2 : cfg.emailPort ≤ 0 <;>
        by_cases h3 : cfg.emailFrom = none <;>
        simp [checkEmail, h1, h2, h3, h4]

/-- Witness for C6 at a configuration with no hostname. -/
theorem c6_witness :
    checkEmail { emailHostname := "" } { status := .FAILURE } =
      some "EMAIL_HOSTNAME not set" :=
  (c6_checkEmail_prereqs _ _).1 rfl

/-- Claim C7: checkBadge fails when the bucket is unset, when the build
has no trigger ID, and when the status has no badge entry, and proceeds
exactly when none of these hold. -/
theorem c7_checkBadge (cfg : Config) (b : Build) :
    (cfg.badgeBucket = "" → checkBadge cfg b = some "BADGE_BUCKET not set") ∧
    (cfg.badgeBucket ≠ "" → b.buildTriggerId = "" →
      checkBadge cfg b = some "build not started by a trigger") ∧
    (cfg.badgeBucket ≠ "" → b.buildTriggerId ≠ "" → badgeStatuses b.status = none →
      checkBadge cfg b = some ("non-badge status \"" ++ statusString b.status ++ "\"")) ∧
    (checkBadge cfg b = none ↔
      (cfg.badgeBucket ≠ "" ∧ b.buildTriggerId ≠ "" ∧
        (b.status = .SUCCESS ∨ b.status = .FAILURE ∨ b.status = .INTERNAL_ERROR ∨
          b.status = .TIMEOUT))) := by
  refine ⟨?_, ?_, ?_, ?_⟩
  · intro h1; simp [checkBadge, h1]
  · intro h1 h2; simp [checkBadge, h1, h2]
  · intro h1 h2 h3; simp [checkBadge, h1, h2, h3]
  · by_cases h1 : cfg.badgeBucket = "" <;>
      by_cases h2 : b.buildTriggerId = "" <;>
      cases hst : b.status <;> simp [checkBadge, h1, h2, badgeStatuses, hst]

/-- Witness for C7: with a bucket and trigger set, a FAILURE build
passes checkBadge. -/
theorem c7_witness :
    checkBadge { badgeBucket := "bkt" } { buildTriggerId := "t1", status := .FAILURE } =
      none :=
  ((c7_checkBadge _ _).2.2.2).mpr ⟨by decide, by decide, by simp⟩

/-- Claim C5: CreateBadge succeeds exactly for the four badge statuses;
the right-segment text comes from the fixed badgeStatuses table and is
placed between badgeSvgPre and badgeSvgPost in the markup; any other
status yields the no-badge-info error (in Go, returned before any byte
is written). -/
theorem c5_createBadge (b : Build) :
    ((∃ s, CreateBadge b = .ok s) ↔
      (b.status = .SUCCESS ∨ b.status = .FAILURE ∨ b.status = .INTERNAL_ERROR ∨
        b.status = .TIMEOUT)) ∧
    ((badgeStatuses .SUCCESS).map BadgeInfo.text = some "success") ∧
    ((badgeStatuses .FAILURE).map BadgeInfo.text = some "failure") ∧
    ((badgeStatuses .INTERNAL_ERROR).map BadgeInfo.text = some "error") ∧
    ((badgeStatuses .TIMEOUT).map BadgeInfo.text = some "timeout") ∧
    (∀ info, badgeStatuses b.status = some info →
      CreateBadge b = .ok (badgeSvgPre { badgeLeft with width := 90 - info.width }
        info ++ info.text ++ badgeSvgPost (formatBadgeTime (nsToSec b.startTime)))) ∧
    (badgeStatuses b.status = none →
      CreateBadge b = .error ("no badge info defined for status \"" ++
        statusString b.status ++ "\"")) := by
  refine ⟨?_, by decide, by decide, by decide, by decide, ?_, ?_⟩
  · constructor
    · intro ⟨s, hs⟩
      cases hst : b.status <;> simp_all [CreateBadge, badgeStatuses]
    · intro h
      have hinfo : ∃ info, badgeStatuses b.status = some info := by
        rcases h with h | h | h | h
        · exact ⟨⟨"success", "#fff", "#2da44e", 52⟩, by simp [h, badgeStatuses]⟩
        · exact ⟨⟨"failure", "#fff", "#c62828", 52⟩, by simp [h, badgeStatuses]⟩
        · exact ⟨⟨"error", "#000", "#ffeb3b", 52⟩, by simp [h, badgeStatuses]⟩
        · exact ⟨⟨"timeout", "#fff", "#333", 52⟩, by simp [h, badgeStatuses]⟩
      obtain ⟨info, hinfo⟩ := hinfo
      exact ⟨badgeSvg { badgeLeft with width := 90 - info.width } info
        (formatBadgeTime (nsToSec b.startTime)), by simp [CreateBadge, hinfo]⟩
  · intro info h
    simp [CreateBadge, h, badgeSvg]
  · intro h
    simp [CreateBadge, h]

/-- Witness for C5 at a SUCCESS build: the table entry and the rendered
markup with the literal text success in the right segment. -/
theorem c5_witness :
    badgeStatuses BuildStatus.SUCCESS = some ⟨"success", "#fff", "#2da44e", 52⟩ ∧
    CreateBadge { status := .SUCCESS } =
      .ok (badgeSvgPre { badgeLeft with width := 38 }
        ⟨"success", "#fff", "#2da44e", 52⟩ ++ "success" ++
        badgeSvgPost (formatBadgeTime 0)) :=
  ⟨rfl, (c5_createBadge _).2.2.2.2.2.1 ⟨"success", "#fff", "#2da44e", 52⟩ rfl⟩

/-- Reading of the C2 claim text: the subject names the extracted
trigger name, falling back to the bare trigger ID when the extracted
name is empty. -/
def specSubjectC2 (b : Build) : String :=
  "[" ++ b.projectId ++ "] " ++ goOr (buildSub b triggerNameSub "") b.buildTriggerId ++
  " " ++ statusString b.status ++ " (build " ++ firstDashSegment b.id ++ ")"

set_option maxRecDepth 16000 in
/-- Counterexample to claim C2: when the TRIGGER_NAME substitution is
absent, the subject shows the literal [unknown], not the trigger ID as
the claim states. -/
theorem c2_counterexample :
    emailSubject (Build.mk "123-456" "p" "trigger-id" .FAILURE "" 0 0 [] []) =
      "[p] [unknown] FAILURE (build 123)" ∧
    specSubjectC2 (Build.mk "123-456" "p" "trigger-id" .FAILURE "" 0 0 [] []) =
      "[p] trigger-id FAILURE (build 123)" ∧
    emailSubject (Build.mk "123-456" "p" "trigger-id" .FAILURE "" 0 0 [] []) ≠
      specSubjectC2 (Build.mk "123-456" "p" "trigger-id" .FAILURE "" 0 0 [] []) := by
  refine ⟨by decide, by decide, by decide⟩

/-- Claim C2 as amended: the subject is
[projectId] name status (build first-id-segment), where name is the
TRIGGER_NAME substitution when present (even if empty) and the literal
[unknown] otherwise, and the build segment is everything before the
first dash of the event id. -/
theorem c2_amended_subject (cfg : Config) (b : Build) (now : Int) (boundary : String) :
    (BuildEmail cfg b now boundary).subject =
      "[" ++ b.projectId ++ "] " ++ buildSub b triggerNameSub "[unknown]" ++ " " ++
      statusString b.status ++ " (build " ++
      String.mk (b.id.data.takeWhile (· ≠ '-')) ++ ")" := by
  show emailSubject b = _
  unfold emailSubject firstDashSegment
  rw [splitChar_headD]

/-- Counterexample to claim C3: a list-valued setting whose raw value
is empty yields the nil map (modelled none), not an empty non-nil map. -/
theorem c3_counterexample :
    listVar (fun _ => "") "EMAIL_BUILD_TRIGGER_IDS" "" = none ∧
    ∀ l : List String, listVar (fun _ => "") "EMAIL_BUILD_TRIGGER_IDS" "" ≠ some l := by
  refine ⟨rfl, ?_⟩
  intro l h
  rw [show listVar (fun _ => "") "EMAIL_BUILD_TRIGGER_IDS" "" = none from rfl] at h
  exact Option.noConfusion h

/-- Claim C3 as amended: an empty raw value makes listVar return the
nil set, and trigger sets of length zero impose no trigger restriction:
with the delivery prerequisites satisfied, checkEmail then depends only
on status membership. -/
theorem c3_amended_empty_sets :
    (∀ (env : String → String) (n dflt : String),
      strVar env n dflt = "" → listVar env n dflt = none) ∧
    (∀ (cfg : Config) (b : Build),
      lenS cfg.emailBuildTriggerIDs = 0 → lenS cfg.emailBuildTriggerNames = 0 →
      cfg.emailHostname ≠ "" → 0 < cfg.emailPort → cfg.emailFrom ≠ none →
      cfg.emailRecipients ≠ [] →
      (checkEmail cfg b = none ↔
        memS cfg.emailBuildStatuses (statusString b.status) = true)) := by
  constructor
  · intro env n dflt h
    simp [listVar, h]
  · intro cfg b hi hn h1 h2 h3 h4
    have h4l : cfg.emailRecipients.length ≠ 0 := by
      simpa [List.length_eq_zero] using h4
    simp only [checkEmail, h1, not_le.mpr h2, h3, h4l, hi, hn, if_false,
      Nat.lt_irrefl, Bool.or_self, if_neg]
    by_cases hm : memS cfg.emailBuildStatuses (statusString b.status) <;> simp [hm]

/-- Witness for C3: a concrete empty environment value gives the nil
set, and a concrete restriction-free configuration proceeds exactly on
status membership. -/
theorem c3_witness :
    strVar (fun _ => "") "EMAIL_BUILD_TRIGGER_IDS" "" = "" ∧
    listVar (fun _ => "") "EMAIL_BUILD_TRIGGER_IDS" "" = none ∧
    (checkEmail
        { emailHostname := "h", emailPort := 25, emailFrom := some ⟨"", "a@b"⟩,
          emailRecipients := [⟨"", "r@b"⟩], emailBuildStatuses := some ["FAILURE"] }
        { status := .FAILURE } = none ↔
      memS (some ["FAILURE"]) (statusString .FAILURE) = true) :=
  ⟨by decide, c3_amended_empty_sets.1 _ _ _ (by decide),
    c3_amended_empty_sets.2 _ _ (by decide) (by decide) (by decide) (by decide)
      (by decide) (by decide)⟩

/-- Claim C1: with the delivery prerequisites satisfied, checkEmail
proceeds exactly when the status (in canonical string form) is in the
allowed set and either no trigger restriction is configured, or the
trigger ID is in the ID set, or the extracted trigger name is a literal
member of the name set, or some pattern of the name set glob-matches
the extracted trigger name without a matching error. -/
theorem c1_checkEmail_iff (cfg : Config) (b : Build)
    (h1 : cfg.emailHostname ≠ "") (h2 : 0 < cfg.emailPort)
    (h3 : cfg.emailFrom ≠ none) (h4 : cfg.emailRecipients ≠ []) :
    checkEmail cfg b = none ↔
      (memS cfg.emailBuildStatuses (statusString b.status) = true ∧
        ((lenS cfg.emailBuildTriggerIDs = 0 ∧ lenS cfg.emailBuildTriggerNames = 0) ∨
          memS cfg.emailBuildTriggerIDs b.buildTriggerId = true ∨
          memS cfg.emailBuildTriggerNames (buildSub b triggerNameSub "") = true ∨
          ∃ p ∈ listOfS cfg.emailBuildTriggerNames,
            filepathMatch p (buildSub b triggerNameSub "") = .ok true)) := by
  have h4l : cfg.emailRecipients.length ≠ 0 := by
    simpa [List.length_eq_zero] using h4
  have hgl : ((listOfS cfg.emailBuildTriggerNames).any
      (fun p => decide (filepathMatch p (buildSub b triggerNameSub "") = .ok true)) = true) ↔
      (∃ p ∈ listOfS cfg.emailBuildTriggerNames,
        filepathMatch p (buildSub b triggerNameSub "") = .ok true) := by
    simp [List.any_eq_true]
  simp only [checkEmail]
  rw [if_neg h1, if_neg (not_le.mpr h2), if_neg h3, if_neg h4l]
  by_cases hR : (lenS cfg.emailBuildTriggerIDs = 0 ∧ lenS cfg.emailBuildTriggerNames = 0)
  · obtain ⟨hIds, hNames⟩ := hR
    have hT : (decide (lenS cfg.emailBuildTriggerIDs > 0) ||
        decide (lenS cfg.emailBuildTriggerNames > 0)) = false := by
      simp [hIds, hNames]
    rw [hT]
    by_cases hm : memS cfg.emailBuildStatuses (statusString b.status) = true <;>
      simp [hm, hIds, hNames]
  · have hT : (decide (lenS cfg.emailBuildTriggerIDs > 0) ||
        decide (lenS cfg.emailBuildTriggerNames > 0)) = true := by
      simp only [Bool.or_eq_true, decide_eq_true_eq]
      rcases not_and_or.mp hR with h | h
      · exact Or.inl (Nat.pos_of_ne_zero h)
      · exact Or.inr (Nat.pos_of_ne_zero h)
    rw [hT]
    by_cases hid : memS cfg.emailBuildTriggerIDs b.buildTriggerId = true <;>
      by_cases hname : memS cfg.emailBuildTriggerNames (buildSub b triggerNameSub "") = true <;>
      by_cases hglob : ∃ p ∈ listOfS cfg.emailBuildTriggerNames,
        filepathMatch p (buildSub b triggerNameSub "") = .ok true <;>
      by_cases hm : memS cfg.emailBuildStatuses (statusString b.status) = true <;>
      simp [hid, hname, hm, hR, hgl, hglob] <;> split <;> simp

/-- Concrete configuration for the C1 witness: a glob-only trigger-name
restriction. -/
def cfgC1 : Config :=
  { emailHostname := "mail.example.org"
    emailPort := 587
    emailFrom := some ⟨"", "sender@example.org"⟩
    emailRecipients := [⟨"", "recip@example.org"⟩]
    emailBuildTriggerNames := some ["*1"]
    emailBuildStatuses := some ["FAILURE"] }

/-- Concrete build for the C1 witness: FAILURE with trigger name
trigger-1, matched only through the glob. -/
def bC1 : Build :=
  { status := .FAILURE
    substitutions := [(triggerNameSub, "trigger-1")] }

example : checkEmail cfgC1 bC1 = none := by decide

/-- Witness for C1 at cfgC1 and bC1. -/
theorem c1_witness :
    cfgC1.emailHostname ≠ "" ∧ 0 < cfgC1.emailPort ∧ cfgC1.emailFrom ≠ none ∧
    cfgC1.emailRecipients ≠ [] ∧
    (checkEmail cfgC1 bC1 = none ↔
      (memS cfgC1.emailBuildStatuses (statusString bC1.status) = true ∧
        ((lenS cfgC1.emailBuildTriggerIDs = 0 ∧ lenS cfgC1.emailBuildTriggerNames = 0) ∨
          memS cfgC1.emailBuildTriggerIDs bC1.buildTriggerId = true ∨
          memS cfgC1.emailBuildTriggerNames (buildSub bC1 triggerNameSub "") = true ∨
          ∃ p ∈ listOfS cfgC1.emailBuildTriggerNames,
            filepathMatch p (buildSub bC1 triggerNameSub "") = .ok true))) :=
  ⟨by decide, by decide, by decide, by decide,
    c1_checkEmail_iff cfgC1 bC1 (by decide) (by decide) (by decide) (by decide)⟩

/-! ## Duration formatting properties -/

/-- Reading of the C8 claim text: units rendered in order, zero units
omitted, with the single exception that the zero duration renders 0s. -/
def specFormatDurationC8 (d : Int) : String :=
  let h := d.tdiv nsPerHour
  let m := (d.tmod nsPerHour).tdiv nsPerMinute
  let sec := (d.tmod nsPerMinute).tdiv nsPerSecond
  if d = 0 then "0s"
  else (if h ≠ 0 then toString h ++ "h" else "") ++
    (if m ≠ 0 then toString m ++ "m" else "") ++
    (if sec ≠ 0 then toString sec ++ "s" else "")

/-- The amended unit-based description of formatDuration: whole hours,
then whole minutes of the remainder, then whole seconds of the
remainder, omitting zero units, and 0s whenever all three units vanish
(every duration shorter than one second, not only zero). -/
def formatDurationUnits (d : Int) : String :=
  let h := d.tdiv nsPerHour
  let m := (d.tmod nsPerHour).tdiv nsPerMinute
  let sec := (d.tmod nsPerMinute).tdiv nsPerSecond
  if h = 0 ∧ m = 0 ∧ sec = 0 then "0s"
  else (if h ≠ 0 then toString h ++ "h" else "") ++
    (if m ≠ 0 then toString m ++ "m" else "") ++
    (if sec ≠ 0 then toString sec ++ "s" else "")

/-- A string with a non-empty suffix is non-empty. -/
theorem append_suffix_ne_empty (a b : String) (hb : b.length ≠ 0) : a ++ b ≠ "" := by
  intro h
  apply hb
  have hl := congrArg String.length h
  rw [String.length_append] at hl
  have h0 : ("" : String).length = 0 := rfl
  omega

/-- formatDuration agrees with the unit-based description on
non-negative durations. -/
theorem formatDuration_eq_units (d : Int) (hd : 0 ≤ d) :
    formatDuration d = formatDurationUnits d := by
  have hH : (0:Int) < nsPerHour := by decide
  have hM : (0:Int) < nsPerMinute := by decide
  have hS : (0:Int) < nsPerSecond := by decide
  have hMH : nsPerMinute ∣ nsPerHour := ⟨60, by decide⟩
  have hd1 : 0 ≤ d.tmod nsPerHour := Int.tmod_nonneg _ hd
  have htmodHM : (d.tmod nsPerHour).tmod nsPerMinute = d.tmod nsPerMinute := by
    rw [Int.tmod_eq_emod hd1 (le_of_lt hM), Int.tmod_eq_emod hd (le_of_lt hH),
      Int.tmod_eq_emod hd (le_of_lt hM), Int.emod_emod_of_dvd _ hMH]
  have hclose : ("" : String).length = 0 := rfl
  have hlh : ("h" : String).length = 1 := rfl
  have hlm : ("m" : String).length = 1 := rfl
  simp only [formatDuration, formatDurationUnits]
  by_cases h1 : d ≥ nsPerHour
  · have hh : d.tdiv nsPerHour ≠ 0 := by
      have : 0 < d.tdiv nsPerHour := by
        rw [Int.tdiv_eq_ediv hd (le_of_lt hH)]
        exact lt_of_lt_of_le Int.zero_lt_one
          ((Int.le_ediv_iff_mul_le hH).mpr (by linarith))
      omega
    have hd1lt : d.tmod nsPerHour < nsPerHour := Int.tmod_lt_of_pos d hH
    by_cases h2 : d.tmod nsPerHour ≥ nsPerMinute
    · have hm : (d.tmod nsPerHour).tdiv nsPerMinute ≠ 0 := by
        have : 0 < (d.tmod nsPerHour).tdiv nsPerMinute := by
          rw [Int.tdiv_eq_ediv hd1 (le_of_lt hM)]
          exact lt_of_lt_of_le Int.zero_lt_one
            ((Int.le_ediv_iff_mul_le hM).mpr (by linarith))
        omega
      have hd2 : 0 ≤ ((d.tmod nsPerHour).tmod nsPerMinute).tdiv nsPerSecond :=
        Int.tdiv_nonneg (Int.tmod_nonneg _ hd1) (le_of_lt hS)
      have hsec : ((d.tmod nsPerHour).tmod nsPerMinute).tdiv nsPerSecond =
          (d.tmod nsPerMinute).tdiv nsPerSecond := by rw [htmodHM]
      rcases hd2.lt_or_eq with h3 | h3
      · have hne : (d.tmod nsPerMinute).tdiv nsPerSecond ≠ 0 := by
          rw [← hsec]; omega
        simp [h1, h2, h3, hh, hm, hne, hsec, String.append_assoc] <;>
          first
          | omega
          | (intro hc
             first
             | omega
             | (intro hc2; omega)
             | (have hl := congrArg String.length hc
                simp [String.length_append, hclose, hlh, hlm] at hl))
      · have heq : (d.tmod nsPerMinute).tdiv nsPerSecond = 0 := by
          rw [← hsec]; omega
        simp [h1, h2, ← h3, hh, hm, heq, not_lt.mpr (le_of_eq h3),
            String.append_assoc] <;>
          first
          | omega
          | (intro hc
             first
             | omega
             | (intro hc2; omega)
             | (have hl := congrArg String.length hc
                simp [String.length_append, hclose, hlh, hlm] at hl))
    · have hm0 : (d.tmod nsPerHour).tdiv nsPerMinute = 0 :=
        Int.tdiv_eq_zero_of_lt hd1 (not_le.mp h2)
      have hd1M : d.tmod nsPerMinute = d.tmod nsPerHour := by
        rw [← htmodHM, Int.tmod_eq_of_lt hd1 (not_le.mp h2)]
      have hd2 : 0 ≤ (d.tmod nsPerHour).tdiv nsPerSecond :=
        Int.tdiv_nonneg hd1 (le_of_lt hS)
      rcases hd2.lt_or_eq with h3 | h3
      · have hne : (d.tmod nsPerHour).tdiv nsPerSecond ≠ 0 := by omega
        simp [h1, h2, h3, hh, hm0, hne, hd1M, String.append_assoc] <;>
          first
          | omega
          | (intro hc
             first
             | omega
             | (intro hc2; omega)
             | (have hl := congrArg String.length hc
                simp [String.length_append, hclose, hlh, hlm] at hl))
      · have heq : (d.tmod nsPerHour).tdiv nsPerSecond = 0 := by omega
        simp [h1, h2, ← h3, hh, hm0, heq, hd1M, not_lt.mpr (le_of_eq h3),
            String.append_assoc] <;>
          first
          | omega
          | (intro hc
             first
             | omega
             | (intro hc2; omega)
             | (have hl := congrArg String.length hc
                simp [String.length_append, hclose, hlh, hlm] at hl))
  · have hh0 : d.tdiv nsPerHour = 0 := Int.tdiv_eq_zero_of_lt hd (not_le.mp h1)
    have hdH : d.tmod nsPerHour = d := Int.tmod_eq_of_lt hd (not_le.mp h1)
    by_cases h2 : d ≥ nsPerMinute
    · have hm : d.tdiv nsPerMinute ≠ 0 := by
        have : 0 < d.tdiv nsPerMinute := by
          rw [Int.tdiv_eq_ediv hd (le_of_lt hM)]
          exact lt_of_lt_of_le Int.zero_lt_one
            ((Int.le_ediv_iff_mul_le hM).mpr (by linarith))
        omega
      have hd2 : 0 ≤ (d.tmod nsPerMinute).tdiv nsPerSecond :=
        Int.tdiv_nonneg (Int.tmod_nonneg _ hd) (le_of_lt hS)
      rcases hd2.lt_or_eq with h3 | h3
      · have hne : (d.tmod nsPerMinute).tdiv nsPerSecond ≠ 0 := by omega
        simp [h1, h2, h3, hh0, hdH, hm, hne, String.append_assoc] <;>
          first
          | omega
          | (intro hc
             first
             | omega
             | (intro hc2; omega)
             | (have hl := congrArg String.length hc
                simp [String.length_append, hclose, hlh, hlm] at hl))
      · simp [h1, h2, ← h3, hh0, hdH, hm, not_lt.mpr (le_of_eq h3),
            String.append_assoc] <;>
          first
          | omega
          | (intro hc
             first
             | omega
             | (intro hc2; omega)
             | (have hl := congrArg String.length hc
                simp [String.length_append, hclose, hlh, hlm] at hl))
    · have hm0 : d.tdiv nsPerMinute = 0 :=
        Int.tdiv_eq_zero_of_lt hd (not_le.mp h2)
      have hdM : d.tmod nsPerMinute = d := Int.tmod_eq_of_lt hd (not_le.mp h2)
      have hd2 : 0 ≤ d.tdiv nsPerSecond := Int.tdiv_nonneg hd (le_of_lt hS)
      rcases hd2.lt_or_eq with h3 | h3
      · have hne : d.tdiv nsPerSecond ≠ 0 := by omega
        simp [h1, h2, h3, hh0, hdH, hdM, hm0, hne, String.append_assoc] <;>
          first
          | omega
          | decide
          | (intro hc
             first
             | omega
             | (intro hc2; omega)
             | (have hl := congrArg String.length hc
                simp [String.length_append, hclose, hlh, hlm] at hl))
      · simp [h1, h2, ← h3, hh0, hdH, hdM, hm0, not_lt.mpr (le_of_eq h3),
            String.append_assoc] <;>
          first
          | omega
          | decide
          | (intro hc
             first
             | omega
             | (intro hc2; omega)
             | (have hl := congrArg String.length hc
                simp [String.length_append, hclose, hlh, hlm] at hl))

/-- Counterexample to claim C8: half a second is a non-zero duration
whose units are all zero, so the claim text renders the empty string,
but the code renders 0s. -/
theorem c8_counterexample :
    formatDuration 500000000 = "0s" ∧ specFormatDurationC8 500000000 = "" ∧
    formatDuration 500000000 ≠ specFormatDurationC8 500000000 :=
  ⟨by decide, by decide, by decide⟩

/-- Claim C8 as amended: formatDuration renders hours, minutes and
seconds in that order, omitting zero units, rendering 0s whenever all
three units vanish (every duration shorter than one second, not only
zero); the example values hold and no unit is negative for non-negative
input. -/
theorem c8_formatDuration_amended :
    (∀ d : Int, 0 ≤ d → formatDuration d = formatDurationUnits d) ∧
    (∀ d : Int, 0 ≤ d → 0 ≤ d.tdiv nsPerHour ∧
      0 ≤ (d.tmod nsPerHour).tdiv nsPerMinute ∧
      0 ≤ (d.tmod nsPerMinute).tdiv nsPerSecond) ∧
    formatDuration 12190000000000 = "3h23m10s" ∧
    formatDuration 10810000000000 = "3h10s" ∧
    formatDuration 53000000000 = "53s" ∧
    formatDuration 0 = "0s" := by
  refine ⟨formatDuration_eq_units, ?_, by decide, by decide, by decide, by decide⟩
  intro d hd
  refine ⟨Int.tdiv_nonneg hd (by decide), ?_, ?_⟩
  · exact Int.tdiv_nonneg (Int.tmod_nonneg _ hd) (by decide)
  · exact Int.tdiv_nonneg (Int.tmod_nonneg _ hd) (by decide)

/-- Witness for C8 at the 3h23m10s example. -/
theorem c8_witness :
    (0 : Int) ≤ 12190000000000 ∧
    formatDuration 12190000000000 = formatDurationUnits 12190000000000 :=
  ⟨by decide, c8_formatDuration_amended.1 12190000000000 (by decide)⟩

/-! ## Configuration loading properties -/

/-- Claim C9: loadConfig never returns a configuration when any of its
settings is invalid: unparseable port, malformed from address,
malformed recipient list, unknown time zone, or an unknown status name
in the allowed-status set. -/
theorem c9_loadConfig_atomic (std : NetStdlib) (env : String → String)
    (h : goAtoi (strVar env "EMAIL_PORT" "25") = .error ()
      ∨ (strVar env "EMAIL_FROM" "" ≠ "" ∧
          std.parseAddress (strVar env "EMAIL_FROM" "") = .error ())
      ∨ (strVar env "EMAIL_RECIPIENTS" "" ≠ "" ∧
          std.parseAddressList (strVar env "EMAIL_RECIPIENTS" "") = .error ())
      ∨ std.loadLocation (strVar env "EMAIL_TIME_ZONE" "Etc/UTC") = .error ()
      ∨ (∃ s ∈ listOfS (listVar env "EMAIL_BUILD_STATUSES"
            "FAILURE,INTERNAL_ERROR,TIMEOUT"),
          knownStatusNames.contains s = false)) :
    ∀ cfg, loadConfig std env ≠ .ok cfg := by
  intro cfg hok
  rcases h with h | ⟨hne, h⟩ | ⟨hne, h⟩ | h | ⟨s, hs, hbad⟩ <;>
    simp only [loadConfig] at hok
  · rw [h] at hok
    exact Except.noConfusion hok
  · rw [if_neg hne, h] at hok
    cases hA : goAtoi (strVar env "EMAIL_PORT" "25") <;> rw [hA] at hok
    · exact Except.noConfusion hok
    · exact Except.noConfusion hok
  · cases hA : goAtoi (strVar env "EMAIL_PORT" "25") <;> rw [hA] at hok
    · exact Except.noConfusion hok
    · by_cases hf : strVar env "EMAIL_FROM" "" = ""
      · rw [if_pos hf] at hok
        rw [if_neg hne, h] at hok
        exact Except.noConfusion hok
      · rw [if_neg hf] at hok
        cases hP : std.parseAddress (strVar env "EMAIL_FROM" "") <;>
          rw [hP] at hok
        · exact Except.noConfusion hok
        · simp only [Except.map] at hok
          rw [if_neg hne, h] at hok
          exact Except.noConfusion hok
  · cases hA : goAtoi (strVar env "EMAIL_PORT" "25") <;> rw [hA] at hok
    · exact Except.noConfusion hok
    · by_cases hf : strVar env "EMAIL_FROM" "" = ""
      case pos =>
        rw [if_pos hf] at hok
        by_cases hr : strVar env "EMAIL_RECIPIENTS" "" = ""
        · rw [if_pos hr, h] at hok
          exact Except.noConfusion hok
        · rw [if_neg hr] at hok
          cases hL : std.parseAddressList (strVar env "EMAIL_RECIPIENTS" "") <;>
            rw [hL] at hok
          · exact Except.noConfusion hok
          · rw [h] at hok
            exact Except.noConfusion hok
      case neg =>
        rw [if_neg hf] at hok
        cases hP : std.parseAddress (strVar env "EMAIL_FROM" "") <;>
          rw [hP] at hok
        · exact Except.noConfusion hok
        · simp only [Except.map] at hok
          by_cases hr : strVar env "EMAIL_RECIPIENTS" "" = ""
          · rw [if_pos hr, h] at hok
            exact Except.noConfusion hok
          · rw [if_neg hr] at hok
            cases hL : std.parseAddressList (strVar env "EMAIL_RECIPIENTS" "") <;>
              rw [hL] at hok
            · exact Except.noConfusion hok
            · rw [h] at hok
              exact Except.noConfusion hok
  · have hall : ¬ (listOfS (listVar env "EMAIL_BUILD_STATUSES"
        "FAILURE,INTERNAL_ERROR,TIMEOUT")).all
          (fun s => knownStatusNames.contains s) := by
      intro hall
      have := List.all_eq_true.mp hall s hs
      rw [hbad] at this
      exact Bool.noConfusion this
    cases hA : goAtoi (strVar env "EMAIL_PORT" "25") <;> rw [hA] at hok
    · exact Except.noConfusion hok
    · by_cases hf : strVar env "EMAIL_FROM" "" = ""
      case pos =>
        rw [if_pos hf] at hok
        by_cases hr : strVar env "EMAIL_RECIPIENTS" "" = ""
        case pos =>
          rw [if_pos hr] at hok
          cases hT : std.loadLocation (strVar env "EMAIL_TIME_ZONE" "Etc/UTC") <;>
            rw [hT] at hok
          · exact Except.noConfusion hok
          · simp only [if_neg hall] at hok
            exact Except.noConfusion hok
        case neg =>
          rw [if_neg hr] at hok
          cases hL : std.parseAddressList (strVar env "EMAIL_RECIPIENTS" "") <;>
            rw [hL] at hok
          · exact Except.noConfusion hok
          · cases hT : std.loadLocation (strVar env "EMAIL_TIME_ZONE" "Etc/UTC") <;>
              rw [hT] at hok
            · exact Except.noConfusion hok
            · simp only [if_neg hall] at hok
              exact Except.noConfusion hok
      case neg =>
        rw [if_neg hf] at hok
        cases hP : std.parseAddress (strVar env "EMAIL_FROM" "") <;>
          rw [hP] at hok
        · exact Except.noConfusion hok
        · simp only [Except.map] at hok
          by_cases hr : strVar env "EMAIL_RECIPIENTS" "" = ""
          case pos =>
            rw [if_pos hr] at hok
            cases hT : std.loadLocation (strVar env "EMAIL_TIME_ZONE" "Etc/UTC") <;>
              rw [hT] at hok
            · exact Except.noConfusion hok
            · simp only [if_neg hall] at hok
              exact Except.noConfusion hok
          case neg =>
            rw [if_neg hr] at hok
            cases hL : std.parseAddressList (strVar env "EMAIL_RECIPIENTS" "") <;>
              rw [hL] at hok
            · exact Except.noConfusion hok
            · cases hT : std.loadLocation (strVar env "EMAIL_TIME_ZONE" "Etc/UTC") <;>
                rw [hT] at hok
              · exact Except.noConfusion hok
              · simp only [if_neg hall] at hok
                exact Except.noConfusion hok

/-! ## Emission lemmas for the two email templates -/

/-- The text template emits the trigger line exactly when the trigger
ID field is non-empty. -/
theorem textLines_trigger (d : TData) :
    ("Trigger:   " ++ goOr d.triggerName d.triggerID) ∈ textLines d ↔
      d.triggerID ≠ "" := by
  constructor
  · intro hmem
    by_contra hno
    apply absurd hmem
    simp only [textLines, hno, ne_eq, not_true_eq_false, if_false,
      List.mem_append, List.mem_cons, List.not_mem_nil, List.mem_singleton,
      mem_if_singleton, not_or, or_false, false_or]
    repeat' apply And.intro
    all_goals first
      | exact append_ne_of_take_ne _ _ _ _ 1 (by decide) (by decide) (by decide)
      | exact append_ne_of_take_ne _ _ _ _ 2 (by decide) (by decide) (by decide)
      | exact fun hcc =>
          append_ne_of_take_ne _ _ _ _ 1 (by decide) (by decide) (by decide) hcc.2
      | exact fun hcc =>
          append_ne_of_take_ne _ _ _ _ 2 (by decide) (by decide) (by decide) hcc.2
  · intro h
    simp [textLines, mem_if_singleton, h]

/-- The text template emits the repo line exactly when the repo field is non-empty. -/
theorem textLines_repo (d : TData) :
    ("Repo:      " ++ d.repo) ∈ textLines d ↔ d.repo ≠ "" := by
  constructor
  · intro hmem
    by_contra hno
    apply absurd hmem
    simp only [textLines, htmlTriggerRow, hno, ne_eq, not_true_eq_false, if_false,
      List.mem_append, List.mem_cons, List.not_mem_nil, List.mem_singleton,
      mem_if_singleton, not_or, or_false, false_or]
    repeat' apply And.intro
    all_goals first
      | exact append_ne_of_take_ne _ _ _ _ 1 (by decide) (by decide) (by decide)
      | exact append_ne_of_take_ne _ _ _ _ 2 (by decide) (by decide) (by decide)
      | exact fun hcc =>
          append_ne_of_take_ne _ _ _ _ 1 (by decide) (by decide) (by decide) hcc.2
      | exact fun hcc =>
          append_ne_of_take_ne _ _ _ _ 2 (by decide) (by decide) (by decide) hcc.2
  · intro h
    simp [textLines, htmlTriggerRow, mem_if_singleton, h]

/-- The text template emits the commit line exactly when the commit field is non-empty. -/
theorem textLines_commit (d : TData) :
    ("Commit:    " ++ d.commit) ∈ textLines d ↔ d.commit ≠ "" := by
  constructor
  · intro hmem
    by_contra hno
    apply absurd hmem
    simp only [textLines, htmlTriggerRow, hno, ne_eq, not_true_eq_false, if_false,
      List.mem_append, List.mem_cons, List.not_mem_nil, List.mem_singleton,
      mem_if_singleton, not_or, or_false, false_or]
    repeat' apply And.intro
    all_goals first
      | exact append_ne_of_take_ne _ _ _ _ 1 (by decide) (by decide) (by decide)
      | exact append_ne_of_take_ne _ _ _ _ 2 (by decide) (by decide) (by decide)
      | exact fun hcc =>
          append_ne_of_take_ne _ _ _ _ 1 (by decide) (by decide) (by decide) hcc.2
      | exact fun hcc =>
          append_ne_of_take_ne _ _ _ _ 2 (by decide) (by decide) (by decide) hcc.2
  · intro h
    simp [textLines, htmlTriggerRow, mem_if_singleton, h]

/-- The text template emits the branch line exactly when the branch field is non-empty. -/
theorem textLines_branch (d : TData) :
    ("Branch:    " ++ d.branch) ∈ textLines d ↔ d.branch ≠ "" := by
  constructor
  · intro hmem
    by_contra hno
    apply absurd hmem
    simp only [textLines, htmlTriggerRow, hno, ne_eq, not_true_eq_false, if_false,
      List.mem_append, List.mem_cons, List.not_mem_nil, List.mem_singleton,
      mem_if_singleton, not_or, or_false, false_or]
    repeat' apply And.intro
    all_goals first
      | exact append_ne_of_take_ne _ _ _ _ 1 (by decide) (by decide) (by decide)
      | exact append_ne_of_take_ne _ _ _ _ 2 (by decide) (by decide) (by decide)
      | exact fun hcc =>
          append_ne_of_take_ne _ _ _ _ 1 (by decide) (by decide) (by decide) hcc.2
      | exact fun hcc =>
          append_ne_of_take_ne _ _ _ _ 2 (by decide) (by decide) (by decide) hcc.2
  · intro h
    simp [textLines, htmlTriggerRow, mem_if_singleton, h]

/-- The HTML template emits the trigger row exactly when the trigger ID field is non-empty. -/
theorem htmlLines_trigger (d : TData) :
    (htmlTriggerRow d) ∈ htmlLines d ↔ d.triggerID ≠ "" := by
  constructor
  · intro hmem
    by_contra hno
    apply absurd hmem
    simp only [htmlLines, htmlTriggerRow, hno, ne_eq, not_true_eq_false, if_false,
      List.mem_append, List.mem_cons, List.not_mem_nil, List.mem_singleton,
      mem_if_singleton, not_or, or_false, false_or]
    repeat' apply And.intro
    all_goals first
      | exact append_ne_lit _ _ _ 1 (by decide) (by decide) (by decide)
      | exact append_ne_lit _ _ _ 3 (by decide) (by decide) (by decide)
      | exact append_ne_of_take_ne _ _ _ _ 24 (by decide) (by decide) (by decide)
      | exact append_ne_of_take_ne _ _ _ _ 25 (by decide) (by decide) (by decide)
      | exact fun hcc =>
          append_ne_of_take_ne _ _ _ _ 24 (by decide) (by decide) (by decide) hcc.2
      | exact fun hcc =>
          append_ne_of_take_ne _ _ _ _ 25 (by decide) (by decide) (by decide) hcc.2
  · intro h
    simp [htmlLines, htmlTriggerRow, mem_if_singleton, h]

/-- The HTML template emits the repo row exactly when the repo field is non-empty. -/
theorem htmlLines_repo (d : TData) :
    ("  <tr><td class=\"left\">Repo</td><td>" ++ (d.repo ++ "</td></tr>")) ∈ htmlLines d ↔ d.repo ≠ "" := by
  constructor
  · intro hmem
    by_contra hno
    apply absurd hmem
    simp only [htmlLines, htmlTriggerRow, hno, ne_eq, not_true_eq_false, if_false,
      List.mem_append, List.mem_cons, List.not_mem_nil, List.mem_singleton,
      mem_if_singleton, not_or, or_false, false_or]
    repeat' apply And.intro
    all_goals first
      | exact append_ne_lit _ _ _ 1 (by decide) (by decide) (by decide)
      | exact append_ne_lit _ _ _ 3 (by decide) (by decide) (by decide)
      | exact append_ne_of_take_ne _ _ _ _ 24 (by decide) (by decide) (by decide)
      | exact append_ne_of_take_ne _ _ _ _ 25 (by decide) (by decide) (by decide)
      | exact fun hcc =>
          append_ne_of_take_ne _ _ _ _ 24 (by decide) (by decide) (by decide) hcc.2
      | exact fun hcc =>
          append_ne_of_take_ne _ _ _ _ 25 (by decide) (by decide) (by decide) hcc.2
  · intro h
    simp [htmlLines, htmlTriggerRow, mem_if_singleton, h]

/-- The HTML template emits the commit row exactly when the commit field is non-empty. -/
theorem htmlLines_commit (d : TData) :
    ("  <tr><td class=\"left\">Commit</td><td>" ++ (d.commit ++ "</td></tr>")) ∈ htmlLines d ↔ d.commit ≠ "" := by
  constructor
  · intro hmem
    by_contra hno
    apply absurd hmem
    simp only [htmlLines, htmlTriggerRow, hno, ne_eq, not_true_eq_false, if_false,
      List.mem_append, List.mem_cons, List.not_mem_nil, List.mem_singleton,
      mem_if_singleton, not_or, or_false, false_or]
    repeat' apply And.intro
    all_goals first
      | exact append_ne_lit _ _ _ 1 (by decide) (by decide) (by decide)
      | exact append_ne_lit _ _ _ 3 (by decide) (by decide) (by decide)
      | exact append_ne_of_take_ne _ _ _ _ 24 (by decide) (by decide) (by decide)
      | exact append_ne_of_take_ne _ _ _ _ 25 (by decide) (by decide) (by decide)
      | exact fun hcc =>
          append_ne_of_take_ne _ _ _ _ 24 (by decide) (by decide) (by decide) hcc.2
      | exact fun hcc =>
          append_ne_of_take_ne _ _ _ _ 25 (by decide) (by decide) (by decide) hcc.2
  · intro h
    simp [htmlLines, htmlTriggerRow, mem_if_singleton, h]

/-- The HTML template emits the branch row exactly when the branch field is non-empty. -/
theorem htmlLines_branch (d : TData) :
    ("  <tr><td class=\"left\">Branch</td><td>" ++ (d.branch ++ "</td></tr>")) ∈ htmlLines d ↔ d.branch ≠ "" := by
  constructor
  · intro hmem
    by_contra hno
    apply absurd hmem
    simp only [htmlLines, htmlTriggerRow, hno, ne_eq, not_true_eq_false, if_false,
      List.mem_append, List.mem_cons, List.not_mem_nil, List.mem_singleton,
      mem_if_singleton, not_or, or_false, false_or]
    repeat' apply And.intro
    all_goals first
      | exact append_ne_lit _ _ _ 1 (by decide) (by decide) (by decide)
      | exact append_ne_lit _ _ _ 3 (by decide) (by decide) (by decide)
      | exact append_ne_of_take_ne _ _ _ _ 24 (by decide) (by decide) (by decide)
      | exact append_ne_of_take_ne _ _ _ _ 25 (by decide) (by decide) (by decide)
      | exact fun hcc =>
          append_ne_of_take_ne _ _ _ _ 24 (by decide) (by decide) (by decide) hcc.2
      | exact fun hcc =>
          append_ne_of_take_ne _ _ _ _ 25 (by decide) (by decide) (by decide) hcc.2
  · intro h
    simp [htmlLines, htmlTriggerRow, mem_if_singleton, h]

set_option maxRecDepth 16000 in
/-- Claim C4: both body parts are rendered from the single shared
emailTData record (so the two parts never disagree on a field value);
the trigger line and row are emitted exactly when the triggerId of the
build is non-empty, the repo, commit and branch lines exactly when the
corresponding extracted substitution is non-empty, and the status,
start, end and duration fields are always emitted. -/
theorem c4_email_emission (cfg : Config) (b : Build) (now : Int) (boundary : String) :
    ((BuildEmail cfg b now boundary).textPart = renderText (emailTData cfg b) ∧
     (BuildEmail cfg b now boundary).htmlPart = renderHtml (emailTData cfg b)) ∧
    (("Trigger:   " ++ goOr (buildSub b triggerNameSub "") b.buildTriggerId) ∈
        textLines (emailTData cfg b) ↔ b.buildTriggerId ≠ "") ∧
    (htmlTriggerRow (emailTData cfg b) ∈ htmlLines (emailTData cfg b) ↔
        b.buildTriggerId ≠ "") ∧
    (("Repo:      " ++ buildSub b repoSub "") ∈ textLines (emailTData cfg b) ↔
        buildSub b repoSub "" ≠ "") ∧
    (("  <tr><td class=\"left\">Repo</td><td>" ++ (buildSub b repoSub "" ++
        "</td></tr>")) ∈ htmlLines (emailTData cfg b) ↔
        buildSub b repoSub "" ≠ "") ∧
    (("Commit:    " ++ buildSub b commitSub "") ∈ textLines (emailTData cfg b) ↔
        buildSub b commitSub "" ≠ "") ∧
    (("  <tr><td class=\"left\">Commit</td><td>" ++ (buildSub b commitSub "" ++
        "</td></tr>")) ∈ htmlLines (emailTData cfg b) ↔
        buildSub b commitSub "" ≠ "") ∧
    (("Branch:    " ++ buildSub b branchSub "") ∈ textLines (emailTData cfg b) ↔
        buildSub b branchSub "" ≠ "") ∧
    (("  <tr><td class=\"left\">Branch</td><td>" ++ (buildSub b branchSub "" ++
        "</td></tr>")) ∈ htmlLines (emailTData cfg b) ↔
        buildSub b branchSub "" ≠ "") ∧
    (("Status:    " ++ statusString b.status) ∈ textLines (emailTData cfg b)) ∧
    (("Start:     " ++ (emailTData cfg b).start) ∈ textLines (emailTData cfg b)) ∧
    (("End:       " ++ ((emailTData cfg b).finish ++ (" (" ++
        (formatDuration (b.finishTime - b.startTime) ++ ")")))) ∈
        textLines (emailTData cfg b)) ∧
    (("  <tr><td class=\"left\">Status</td><td>" ++ (statusString b.status ++
        "</td></tr>")) ∈ htmlLines (emailTData cfg b)) ∧
    (("  <tr><td class=\"left\">Start</td><td>" ++ ((emailTData cfg b).start ++
        "</td></tr>")) ∈ htmlLines (emailTData cfg b)) ∧
    (("  <tr><td class=\"left\">End</td><td>" ++ ((emailTData cfg b).finish ++
        (" (" ++ (formatDuration (b.finishTime - b.startTime) ++ ")</td></tr>")))) ∈
        htmlLines (emailTData cfg b)) ∧
    ((emailTData cfg b).triggerID = b.buildTriggerId ∧
     (emailTData cfg b).triggerName = buildSub b triggerNameSub "" ∧
     (emailTData cfg b).status = statusString b.status ∧
     (emailTData cfg b).repo = buildSub b repoSub "" ∧
     (emailTData cfg b).commit = buildSub b commitSub "" ∧
     (emailTData cfg b).branch = buildSub b branchSub "" ∧
     (emailTData cfg b).duration = formatDuration (b.finishTime - b.startTime)) := by
  refine ⟨⟨rfl, rfl⟩, ?_, ?_, ?_, ?_, ?_, ?_, ?_, ?_, ?_, ?_, ?_, ?_, ?_, ?_,
    rfl, rfl, rfl, rfl, rfl, rfl, rfl⟩
  · exact textLines_trigger (emailTData cfg b)
  · exact htmlLines_trigger (emailTData cfg b)
  · exact textLines_repo (emailTData cfg b)
  · exact htmlLines_repo (emailTData cfg b)
  · exact textLines_commit (emailTData cfg b)
  · exact htmlLines_commit (emailTData cfg b)
  · exact textLines_branch (emailTData cfg b)
  · exact htmlLines_branch (emailTData cfg b)
  · simp [textLines, emailTData, mem_if_singleton]
  · simp [textLines, emailTData, mem_if_singleton]
  · simp [textLines, emailTData, mem_if_singleton]
  · simp [htmlLines, emailTData, mem_if_singleton]
  · simp [htmlLines, emailTData, mem_if_singleton]
  · simp [htmlLines, emailTData, mem_if_singleton]

/-- Concrete standard-library parsers for the C9 witness. -/
def stdC9 : NetStdlib :=
  { parseAddress := fun s => if s.data.contains '@' then .ok ⟨"", s⟩ else .error ()
    parseAddressList := fun s => if s.data.contains '@' then .ok [⟨"", s⟩] else .error ()
    loadLocation := fun s => if s = "Etc/UTC" then .ok 0 else .error () }

/-- Concrete environment for the C9 witness: an unparseable port. -/
def envC9 : String → String :=
  fun n => if n = "EMAIL_PORT" then "not-a-number" else ""

/-- Witness for C9: with the port unparseable, loadConfig yields no
configuration. -/
theorem c9_witness :
    (goAtoi (strVar envC9 "EMAIL_PORT" "25") = .error ()
      ∨ (strVar envC9 "EMAIL_FROM" "" ≠ "" ∧
          stdC9.parseAddress (strVar envC9 "EMAIL_FROM" "") = .error ())
      ∨ (strVar envC9 "EMAIL_RECIPIENTS" "" ≠ "" ∧
          stdC9.parseAddressList (strVar envC9 "EMAIL_RECIPIENTS" "") = .error ())
      ∨ stdC9.loadLocation (strVar envC9 "EMAIL_TIME_ZONE" "Etc/UTC") = .error ()
      ∨ (∃ s ∈ listOfS (listVar envC9 "EMAIL_BUILD_STATUSES"
            "FAILURE,INTERNAL_ERROR,TIMEOUT"),
          knownStatusNames.contains s = false)) ∧
    ∀ cfg, loadConfig stdC9 envC9 ≠ .ok cfg :=
  ⟨Or.inl (by decide), c9_loadConfig_atomic stdC9 envC9 (Or.inl (by decide))⟩
